import Mathlib

/-!
Verification of `scripts/fetch_transcript.py`.

The script is a pure function of its command-line arguments and of the
responses of the external transcript provider (`YouTubeTranscriptApi`).
We embed it shallowly:

* the provider is an abstract function `Fetch` from a video id and an
  optional language-restriction list to either an ordered list of caption
  snippets or an error string (`str(e)` of the raised exception);
* Python floats (`start`, `duration`) are modelled as `Rat`; the script
  never computes with them, it only copies them into the output document;
* the JSON documents built by `json.dumps` are modelled by the inductive
  `Json`, with object fields in insertion order (Python dicts preserve
  insertion order and `json.dumps` serializes fields in that order);
* the observable behaviour of one process invocation is a `RunResult`:
  the list of JSON documents printed to stdout (each `print` emits one
  line), the process exit code, and the log of provider calls made.
-/

/-- One caption snippet as returned by the provider: `snippet.text`,
`snippet.start`, `snippet.duration`. -/
structure Snippet where
  text : String
  start : Rat
  duration : Rat
deriving DecidableEq, Repr

/-- The external provider: `api.fetch(video_id, languages=[language])` is
`fetch video_id (some [language])`; `api.fetch(video_id)` is
`fetch video_id none`.  A raised exception is `.error (str e)`. -/
def Fetch : Type := String → Option (List String) → Except String (List Snippet)

/-- JSON values, as produced by `json.dumps`; object fields keep
insertion order. -/
inductive Json where
  | str (s : String)
  | num (q : Rat)
  | bool (b : Bool)
  | arr (elems : List Json)
  | obj (fields : List (String × Json))

/-- The dict built for one snippet:
`{'text': snippet.text, 'start': snippet.start, 'duration': snippet.duration}`. -/
def segmentJson (s : Snippet) : Json :=
  .obj [("text", .str s.text), ("start", .num s.start), ("duration", .num s.duration)]

/-- The success envelope `result` built on lines 32-39 of the script. -/
def successJson (video_id : String) (segments : List Json) (language : String) : Json :=
  .obj [("success", .bool true),
        ("data", .obj [("videoId", .str video_id),
                       ("transcript", .arr segments),
                       ("language", .str language)])]

/-- The failure envelope `error_result`: `{'success': False, 'error': str(e)}`. -/
def failureJson (error : String) : Json :=
  .obj [("success", .bool false), ("error", .str error)]

/-- One call made to the provider: the video id passed and the
`languages` keyword argument (`none` when omitted). -/
structure Attempt where
  videoId : String
  languages : Option (List String)
deriving DecidableEq, Repr

/-- Observable behaviour of one invocation: JSON documents printed to
stdout (in order; each is one line), process exit code, provider calls
made (in order). -/
structure RunResult where
  out : List Json
  exitCode : Nat
  attempts : List Attempt

/-- The inner try/except of `fetch_transcript` (lines 17-21): try the
language-restricted fetch; on any exception fall back to the
unrestricted fetch, discarding the first error.  Also records the
provider calls made. -/
def fetchWithFallback (api : Fetch) (video_id language : String) :
    Except String (List Snippet) × List Attempt :=
  match api video_id (some [language]) with
  | .ok transcript => (.ok transcript, [⟨video_id, some [language]⟩])
  | .error _ => (api video_id none, [⟨video_id, some [language]⟩, ⟨video_id, none⟩])

/-- `fetch_transcript(video_id, language='en')` (lines 11-48): fetch with
fallback, map the snippets to segment dicts preserving order, print one
envelope; exit code 1 via `sys.exit(1)` on failure, 0 on normal return. -/
def fetch_transcript (api : Fetch) (video_id : String) (language : String := "en") :
    RunResult :=
  match fetchWithFallback api video_id language with
  | (.ok transcript, attempts) =>
      ⟨[successJson video_id (transcript.map segmentJson) language], 0, attempts⟩
  | (.error e, attempts) =>
      ⟨[failureJson e], 1, attempts⟩

/-- The `__main__` block (lines 50-58): `argv` is the full `sys.argv`
(program name first).  With fewer than two entries, print the
"Video ID required" failure and exit 1 without any provider call;
otherwise call `fetch_transcript` with `argv[1]` and `argv[2]` when
present, `'en'` otherwise. -/
def mainEntry (api : Fetch) (argv : List String) : RunResult :=
  if argv.length < 2 then
    ⟨[failureJson "Video ID required"], 1, []⟩
  else
    fetch_transcript api (argv.getD 1 "")
      (if argv.length > 2 then argv.getD 2 "" else "en")

/-- A provider returning a fixed two-snippet transcript, for witnesses. -/
def sampleSnippets : List Snippet :=
  [⟨"hello", 0, 3/2⟩, ⟨"world", 3/2, 2⟩]

/-- Provider that succeeds on every call with `sampleSnippets`. -/
def apiOk : Fetch := fun _ _ => .ok sampleSnippets

/-- Provider that fails every call with a fixed message. -/
def apiFail : Fetch := fun _ _ => .error "no transcript"

/-- Provider whose language-restricted calls fail but whose unrestricted
calls succeed. -/
def apiFallbackOnly : Fetch := fun _ langs =>
  match langs with
  | some _ => .error "language unavailable"
  | none => .ok sampleSnippets

/-- A provider extensionally equal to `apiFail` but syntactically
distinct, for a witness. -/
def apiFailTwin : Fetch := fun _ _ => .error ("no " ++ "transcript")

/-- Helper: whatever the provider does, the first call recorded by
`fetch_transcript` is the language-restricted one. -/
theorem fetch_transcript_attempts_head (api : Fetch) (v lang : String) :
    (fetch_transcript api v lang).attempts.head? = some ⟨v, some [lang]⟩ := by
  unfold fetch_transcript fetchWithFallback
  cases hp : api v (some [lang]) with
  | ok t => rfl
  | error e => cases hq : api v none <;> rfl

/-- C1: when retrieval (after the fallback) yields snippets `ts`, the
emitted document is the Success envelope whose `transcript` array is
exactly `ts` mapped element-wise through `segmentJson`: same length as
`ts`, each element carrying that snippet's `text`, `start` and
`duration`, in the provider's order. -/
theorem success_transcript_maps_snippets (api : Fetch) (v lang : String)
    (ts : List Snippet) (h : (fetchWithFallback api v lang).1 = .ok ts) :
    (fetch_transcript api v lang).out =
      [successJson v (ts.map segmentJson) lang]
    ∧ (ts.map segmentJson).length = ts.length
    ∧ ∀ i (hi : i < ts.length),
        (ts.map segmentJson).get ⟨i, by simpa using hi⟩ =
          .obj [("text", .str (ts.get ⟨i, hi⟩).text),
                ("start", .num (ts.get ⟨i, hi⟩).start),
                ("duration", .num (ts.get ⟨i, hi⟩).duration)] := by
  refine ⟨?_, by simp, ?_⟩
  · revert h
    unfold fetch_transcript fetchWithFallback
    cases hp : api v (some [lang]) with
    | ok t =>
        intro h
        simp only [Except.ok.injEq] at h
        subst h
        rfl
    | error e =>
        intro h
        simp only at h
        simp [h]
  · intro i hi
    simp [segmentJson, List.get_eq_getElem]

/-- C1 witness: a concrete always-succeeding provider. -/
theorem success_transcript_maps_snippets_witness :
    (fetch_transcript apiOk "vid" "en").out =
      [successJson "vid" (sampleSnippets.map segmentJson) "en"] :=
  (success_transcript_maps_snippets apiOk "vid" "en" sampleSnippets rfl).1

/-- C2: the first provider call is always the language-restricted one; a
second, unrestricted call is made exactly when the first fails; and when
the first fails, the emitted document and exit code are determined by the
unrestricted call alone, so the first error never reaches the caller. -/
theorem restricted_then_unrestricted_fallback (api : Fetch) (v lang : String) :
    ((fetch_transcript api v lang).attempts =
      match api v (some [lang]) with
      | .ok _ => [⟨v, some [lang]⟩]
      | .error _ => [⟨v, some [lang]⟩, ⟨v, none⟩])
    ∧ ∀ e, api v (some [lang]) = .error e →
        (fetch_transcript api v lang).out =
          (match api v none with
           | .ok t => [successJson v (t.map segmentJson) lang]
           | .error e2 => [failureJson e2])
        ∧ (fetch_transcript api v lang).exitCode =
          (match api v none with
           | .ok _ => 0
           | .error _ => 1) := by
  constructor
  · unfold fetch_transcript fetchWithFallback
    cases hp : api v (some [lang]) with
    | ok t => rfl
    | error e => cases hq : api v none <;> rfl
  · intro e he
    unfold fetch_transcript fetchWithFallback
    rw [he]
    cases hq : api v none with
    | ok t => exact ⟨rfl, rfl⟩
    | error e2 => exact ⟨rfl, rfl⟩

/-- C2 witness: a provider whose restricted calls fail and whose
unrestricted calls succeed. -/
theorem restricted_then_unrestricted_fallback_witness :
    (fetch_transcript apiFallbackOnly "vid" "en").attempts =
      [⟨"vid", some ["en"]⟩, ⟨"vid", none⟩]
    ∧ (fetch_transcript apiFallbackOnly "vid" "en").out =
      [successJson "vid" (sampleSnippets.map segmentJson) "en"] := by
  have h := restricted_then_unrestricted_fallback apiFallbackOnly "vid" "en"
  exact ⟨h.1, (h.2 "language unavailable" rfl).1⟩

/-- C3: when both calls fail, the script prints the Failure envelope
`{"success": false, "error": <second error>}` carrying the stringified
error of the final, unrestricted attempt, and exits with code 1. -/
theorem both_attempts_fail_emits_second_error (api : Fetch)
    (v lang e1 e2 : String) (h1 : api v (some [lang]) = .error e1)
    (h2 : api v none = .error e2) :
    fetch_transcript api v lang =
      ⟨[failureJson e2], 1, [⟨v, some [lang]⟩, ⟨v, none⟩]⟩ := by
  unfold fetch_transcript fetchWithFallback
  rw [h1, h2]

/-- C3 witness: a provider failing every call. -/
theorem both_attempts_fail_emits_second_error_witness :
    fetch_transcript apiFail "vid" "en" =
      ⟨[failureJson "no transcript"], 1,
       [⟨"vid", some ["en"]⟩, ⟨"vid", none⟩]⟩ :=
  both_attempts_fail_emits_second_error apiFail "vid" "en"
    "no transcript" "no transcript" rfl rfl

/-- C4: with fewer than two `argv` entries (no video id supplied), the
script prints `{"success": false, "error": "Video ID required"}`, exits
with code 1, and makes no provider call. -/
theorem missing_video_id_no_retrieval (api : Fetch) (argv : List String)
    (h : argv.length < 2) :
    mainEntry api argv = ⟨[failureJson "Video ID required"], 1, []⟩ := by
  unfold mainEntry
  rw [if_pos h]

/-- C4 witness: `argv` holding only the program name. -/
theorem missing_video_id_no_retrieval_witness :
    mainEntry apiOk ["fetch_transcript.py"] =
      ⟨[failureJson "Video ID required"], 1, []⟩ :=
  missing_video_id_no_retrieval apiOk ["fetch_transcript.py"] (by decide)

/-- C5: the exit code is always 0 or 1, and it is 0 exactly when the
printed document is a Success envelope. -/
theorem exit_code_zero_iff_success (api : Fetch) (argv : List String) :
    ((mainEntry api argv).exitCode = 0 ∨ (mainEntry api argv).exitCode = 1)
    ∧ ((mainEntry api argv).exitCode = 0 ↔
        ∃ v segs lang, (mainEntry api argv).out = [successJson v segs lang]) := by
  unfold mainEntry fetch_transcript fetchWithFallback
  by_cases hlen : argv.length < 2
  · rw [if_pos hlen]
    refine ⟨Or.inr rfl, ?_, ?_⟩
    · intro h; exact absurd h one_ne_zero
    · rintro ⟨v, segs, lang, h⟩
      simp [failureJson, successJson] at h
  · rw [if_neg hlen]
    cases hp : api (argv.getD 1 "")
        (some [if argv.length > 2 then argv.getD 2 "" else "en"]) with
    | ok t => exact ⟨Or.inl rfl, fun _ => ⟨_, _, _, rfl⟩, fun _ => rfl⟩
    | error e =>
        cases hq : api (argv.getD 1 "") none with
        | ok t => exact ⟨Or.inl rfl, fun _ => ⟨_, _, _, rfl⟩, fun _ => rfl⟩
        | error e2 =>
            refine ⟨Or.inr rfl, ?_, ?_⟩
            · intro h; exact absurd h one_ne_zero
            · rintro ⟨v, segs, lang, h⟩
              simp [failureJson, successJson] at h

/-- C6: with a video id and no language argument, the language used is
"en": the invocation equals `fetch_transcript` at language "en" and the
first provider call restricts to `["en"]`. -/
theorem default_language_is_en (api : Fetch) (prog vid : String) :
    mainEntry api [prog, vid] = fetch_transcript api vid "en"
    ∧ (mainEntry api [prog, vid]).attempts.head? = some ⟨vid, some ["en"]⟩ := by
  refine ⟨rfl, ?_⟩
  show (fetch_transcript api vid "en").attempts.head? = _
  exact fetch_transcript_attempts_head api vid "en"

/-- C7: every invocation prints exactly one JSON document, and it is
either a Failure envelope or a Success envelope. -/
theorem exactly_one_output_document (api : Fetch) (argv : List String) :
    ∃ d, (mainEntry api argv).out = [d]
      ∧ ((∃ e, d = failureJson e)
         ∨ ∃ v segs lang, d = successJson v segs lang) := by
  unfold mainEntry fetch_transcript fetchWithFallback
  by_cases hlen : argv.length < 2
  · rw [if_pos hlen]
    exact ⟨_, rfl, Or.inl ⟨_, rfl⟩⟩
  · rw [if_neg hlen]
    cases hp : api (argv.getD 1 "")
        (some [if argv.length > 2 then argv.getD 2 "" else "en"]) with
    | ok t => exact ⟨_, rfl, Or.inr ⟨_, _, _, rfl⟩⟩
    | error e =>
        cases hq : api (argv.getD 1 "") none with
        | ok t => exact ⟨_, rfl, Or.inr ⟨_, _, _, rfl⟩⟩
        | error e2 => exact ⟨_, rfl, Or.inl ⟨_, rfl⟩⟩

/-- C8: the script is a pure function of `argv` and the provider's
responses: two providers answering identically on every call yield
identical printed documents, exit codes and call logs, so repeated runs
with identical arguments and identical provider responses produce
byte-identical output. -/
theorem output_determined_by_provider_responses (api api2 : Fetch)
    (argv : List String) (h : ∀ v langs, api v langs = api2 v langs) :
    mainEntry api argv = mainEntry api2 argv := by
  have hfun : api = api2 := funext fun v => funext fun langs => h v langs
  rw [hfun]

/-- C8 witness: two pointwise-equal providers give identical runs. -/
theorem output_determined_by_provider_responses_witness :
    mainEntry apiFail ["p", "v"] = mainEntry apiFailTwin ["p", "v"] :=
  output_determined_by_provider_responses apiFail apiFailTwin ["p", "v"]
    (fun _ _ => rfl)

/-- C9: on success the envelope's `language` field is the requested
language, even when the transcript came from the unrestricted fallback
and may be in another language. -/
theorem reported_language_is_requested (api : Fetch) (v lang e : String)
    (ts : List Snippet) (h1 : api v (some [lang]) = .error e)
    (h2 : api v none = .ok ts) :
    fetch_transcript api v lang =
      ⟨[successJson v (ts.map segmentJson) lang], 0,
       [⟨v, some [lang]⟩, ⟨v, none⟩]⟩ := by
  unfold fetch_transcript fetchWithFallback
  rw [h1, h2]

/-- C9 witness: requesting "de" from a provider with no restricted
transcripts still reports language "de" in the Success envelope. -/
theorem reported_language_is_requested_witness :
    fetch_transcript apiFallbackOnly "vid" "de" =
      ⟨[successJson "vid" (sampleSnippets.map segmentJson) "de"], 0,
       [⟨"vid", some ["de"]⟩, ⟨"vid", none⟩]⟩ :=
  reported_language_is_requested apiFallbackOnly "vid" "de"
    "language unavailable" sampleSnippets rfl rfl

/-- C10: an empty-string video id does not trigger the missing-input
branch: `argv` then has two entries, so the script proceeds to attempt
retrieval, its first provider call being for video id "" with
languages ["en"]. -/
theorem empty_video_id_attempts_retrieval (api : Fetch) (prog : String) :
    mainEntry api [prog, ""] = fetch_transcript api "" "en"
    ∧ (mainEntry api [prog, ""]).attempts.head? = some ⟨"", some ["en"]⟩
    ∧ (mainEntry api [prog, ""]).attempts ≠ [] := by
  refine ⟨rfl, ?_, ?_⟩
  · show (fetch_transcript api "" "en").attempts.head? = _
    exact fetch_transcript_attempts_head api "" "en"
  · show (fetch_transcript api "" "en").attempts ≠ []
    intro hnil
    have hh := fetch_transcript_attempts_head api "" "en"
    rw [hnil] at hh
    exact Option.noConfusion hh
